import Mathlib

/-!
Shallow embedding of the timing core of `pomodoro.py`: the `TimeDisplay`
countdown widget (elapsed-time accumulator with a limit) and the `Pomodoro`
session sequencer (study/break chaining).  Wall-clock instants (Python's
`monotonic()`) are passed explicitly as rational numbers `now : ℚ`; the two
`monotonic()` reads that can occur inside a single handler are modelled as the
same instant (the handler is atomic with respect to the sampling tick).
Python floats are modelled as rationals.
-/

/-- State of the `TimeDisplay` widget.  `start_time`, `time`, `total` and
`limit` are the reactive fields of the Python class; `running` models whether
`self.update_timer` is resumed (ticks fire) or paused (no ticks fire), which
is the only run/stop indicator the code keeps — `start_time` is never cleared. -/
structure TimeDisplay where
  start_time : ℚ
  time : ℚ
  total : ℚ
  limit : ℚ
  running : Bool
  session_type : String
deriving Repr, DecidableEq

/-- Initial `TimeDisplay` state: `start_time = reactive(monotonic)` captures the
creation instant, `time = total = limit = 0`, and the interval timer is created
paused (`set_interval(..., pause=True)`). -/
def TimeDisplay.init (now : ℚ) : TimeDisplay :=
  { start_time := now, time := 0, total := 0, limit := 0, running := false,
    session_type := "study" }

/-- `TimeDisplay.stop`: `self.update_timer.pause(); self.total += monotonic() -
self.start_time; self.time = self.total`.  Note the code has no guard on the
running state: the fold happens unconditionally. -/
def TimeDisplay.stop (td : TimeDisplay) (now : ℚ) : TimeDisplay :=
  let total' := td.total + (now - td.start_time)
  { td with running := false, total := total', time := total' }

/-- `TimeDisplay.start`: `self.start_time = monotonic();
self.update_timer.resume()`.  No guard: `start_time` is overwritten even if
already running. -/
def TimeDisplay.start (td : TimeDisplay) (now : ℚ) : TimeDisplay :=
  { td with start_time := now, running := true }

/-- `TimeDisplay.reset`: `self.total = 0; self.time = 0`.  It touches neither
`start_time` nor the paused/resumed state of the interval timer. -/
def TimeDisplay.reset (td : TimeDisplay) : TimeDisplay :=
  { td with total := 0, time := 0 }

/-- `TimeDisplay.update_time`, the body of one sampling tick.  Returns the new
state and whether `on_limit_reached` fired (which posts `SessionEnded`).  In
the limit branch the code assigns `self.time = self.limit` and then calls
`self.stop()`, whose own `self.time = self.total` assignment runs afterwards. -/
def TimeDisplay.update_time (td : TimeDisplay) (now : ℚ) : TimeDisplay × Bool :=
  let new_time := td.total + (now - td.start_time)
  if 0 < td.limit ∧ td.limit ≤ new_time then
    let td1 : TimeDisplay := { td with time := td.limit }
    (td1.stop now, true)
  else
    ({ td with time := new_time }, false)

/-- One scheduled tick of the interval timer: `update_time` runs only while the
interval is resumed; while paused no callback fires, so the state is unchanged
and no event is emitted. -/
def TimeDisplay.tick (td : TimeDisplay) (now : ℚ) : TimeDisplay × Bool :=
  if td.running then td.update_time now else (td, false)

/-- The elapsed reading an observer of the widget sees at instant `now`: while
running, the next tick writes `total + (now - start_time)` into `time`
(`update_time`); while stopped, `time` holds whatever was last written (after
`stop`, that is `total`). -/
def TimeDisplay.elapsedAt (td : TimeDisplay) (now : ℚ) : ℚ :=
  if td.running then td.total + (now - td.start_time) else td.time

/-- Python `int(s)` on a list of digit characters: fails on an empty string or
any non-digit character, otherwise the base-10 value. -/
def pyDigits? (cs : List Char) : Option ℤ :=
  if cs ≠ [] ∧ cs.all Char.isDigit then
    some (cs.foldl (fun a c => a * 10 + ((c.toNat : ℤ) - 48)) 0)
  else
    none

/-- Strip leading and trailing whitespace from a character list (the
whitespace stripping Python's `int` performs on its string argument). -/
def pyStrip (cs : List Char) : List Char :=
  ((cs.dropWhile Char.isWhitespace).reverse.dropWhile Char.isWhitespace).reverse

/-- Python `int(s)` for a decimal string: surrounding whitespace stripped,
optional sign, then a non-empty run of digits; anything else raises
`ValueError`, modelled as `none`. -/
def pyInt? (s : String) : Option ℤ :=
  match pyStrip s.data with
  | '-' :: rest => (pyDigits? rest).map (fun n => -n)
  | '+' :: rest => pyDigits? rest
  | cs => pyDigits? cs

/-- `int(self.query_one(...).value or dflt)`: an empty input string is falsy,
so the default literal is parsed instead. -/
def parseField (v : String) (dflt : String) : Option ℤ :=
  pyInt? (if v = "" then dflt else v)

/-- The five free-form text inputs read by `start_clicked`. -/
structure Inputs where
  studyMin : String
  studySec : String
  breakMin : String
  breakSec : String
  sessionsTxt : String
deriving Repr, DecidableEq

/-- State of the `Pomodoro` widget: the five configuration reactives, the
current session kind string, the remaining-session counter and the owned
`TimeDisplay`. -/
structure Pomodoro where
  study_minutes : ℤ
  study_seconds : ℤ
  break_minutes : ℤ
  break_seconds : ℤ
  sessions : ℤ
  session_type : String
  sessions_remaining : ℤ
  timer : TimeDisplay
deriving Repr, DecidableEq

/-- Initial `Pomodoro` state: the reactive defaults `25/0`, `5/0`, `4`,
`"study"`, `0`, with a freshly mounted timer. -/
def Pomodoro.init (now : ℚ) : Pomodoro :=
  { study_minutes := 25, study_seconds := 0, break_minutes := 5,
    break_seconds := 0, sessions := 4, session_type := "study",
    sessions_remaining := 0, timer := TimeDisplay.init now }

/-- `Pomodoro.start_session`: sets the timer's session kind and limit from the
configured minutes/seconds of the requested kind, then `timer.reset()`,
`timer.start()`, and records the session kind (the background-colour styling
is presentation only and not modelled). -/
def Pomodoro.start_session (p : Pomodoro) (st : String) (now : ℚ) : Pomodoro :=
  let lim : ℚ :=
    if st = "study" then ((p.study_minutes * 60 + p.study_seconds : ℤ) : ℚ)
    else ((p.break_minutes * 60 + p.break_seconds : ℤ) : ℚ)
  let t := { p.timer with session_type := st, limit := lim }
  { p with timer := (t.reset).start now, session_type := st }

/-- `Pomodoro.start_clicked` (the Start button / `begin`).  The five inputs are
parsed one at a time inside a single `try`; each successful `int(...)` is
assigned to its reactive before the next is parsed, so a `ValueError` midway
leaves the earlier fields already updated and returns after a bell (`false`).
On full success it sets `sessions_remaining = sessions` and starts a study
session (`true`).  There is no validation beyond `int` parsing and no check of
the current state. -/
def Pomodoro.start_clicked (p : Pomodoro) (inp : Inputs) (now : ℚ) :
    Pomodoro × Bool :=
  match parseField inp.studyMin "0" with
  | none => (p, false)
  | some sm =>
    let p1 := { p with study_minutes := sm }
    match parseField inp.studySec "0" with
    | none => (p1, false)
    | some ss =>
      let p2 := { p1 with study_seconds := ss }
      match parseField inp.breakMin "0" with
      | none => (p2, false)
      | some bm =>
        let p3 := { p2 with break_minutes := bm }
        match parseField inp.breakSec "0" with
        | none => (p3, false)
        | some bs =>
          let p4 := { p3 with break_seconds := bs }
          match parseField inp.sessionsTxt "1" with
          | none => (p4, false)
          | some n =>
            let p5 := { p4 with sessions := n }
            let p6 := { p5 with sessions_remaining := p5.sessions }
            (p6.start_session "study" now, true)

/-- `Pomodoro.stop_clicked` (the Stop button): unconditionally calls
`timer.stop()`. -/
def Pomodoro.stop_clicked (p : Pomodoro) (now : ℚ) : Pomodoro :=
  { p with timer := p.timer.stop now }

/-- `Pomodoro.reset_clicked` (the Reset button): `timer.stop()`, then
`sessions_remaining = self.sessions`, then `timer.reset()` (the transparent
background is presentation only). -/
def Pomodoro.reset_clicked (p : Pomodoro) (now : ℚ) : Pomodoro :=
  let t := p.timer.stop now
  { p with sessions_remaining := p.sessions, timer := t.reset }

/-- `Pomodoro.handle_session_end`, the reaction to a `SessionEnded` message: a
finished study session starts the break; a finished break decrements
`sessions_remaining` and either starts the next study session or, when the
counter is no longer positive, calls `timer.stop()` once more (the timer was
already stopped by the tick that fired the event) and clears the background. -/
def Pomodoro.handle_session_end (p : Pomodoro) (now : ℚ) : Pomodoro :=
  if p.session_type = "study" then
    p.start_session "break" now
  else
    let r := p.sessions_remaining - 1
    if 0 < r then
      ({ p with sessions_remaining := r }).start_session "study" now
    else
      { p with sessions_remaining := r, timer := p.timer.stop now }

/-- The string "break" is not the string "study" (used to reduce the
session-kind branches). -/
@[simp] theorem break_ne_study : ¬ (("break" : String) = "study") := by decide

/-- A timer mid-run towards a 10-second limit: started at instant 0 with no
banked time, sampled next at instant 11. -/
def c1_timer : TimeDisplay :=
  { start_time := 0, time := 0, total := 0, limit := 10, running := true,
    session_type := "study" }

/-- C1: on the tick where the computed elapsed time reaches the limit the code
does assign `time = limit`, but the `stop()` it then performs re-assigns
`time = total` after folding the whole run segment in, so the reported elapsed
time ends at the overshoot value `11`, strictly above the limit `10` (and
`total` is banked as `11` as well).  The timer does stop on that tick, the
completion event fires on it, and no further tick fires or re-emits while
stopped. -/
theorem C1_tick_overshoot :
    (c1_timer.tick 11).2 = true ∧
    (c1_timer.tick 11).1.time = 11 ∧
    (10 : ℚ) < (c1_timer.tick 11).1.time ∧
    (c1_timer.tick 11).1.running = false ∧
    (c1_timer.tick 11).1.total = 11 ∧
    ((c1_timer.tick 11).1.tick 12) = ((c1_timer.tick 11).1, false) := by
  norm_num [c1_timer, TimeDisplay.tick, TimeDisplay.update_time,
    TimeDisplay.stop]

/-- C3: for a running timer, `stop()` followed by `start()` preserves the
accumulated reading exactly: the fold banks precisely the elapsed reading at
the stop instant, and the reading just after the restart instant equals the
reading at the stop instant — nothing is lost or double-counted apart from the
wall-clock gap `now' - now` during which the timer was paused. -/
theorem C3_stop_start_roundtrip (td : TimeDisplay) (now now' : ℚ)
    (h : td.running = true) :
    ((td.stop now).start now').total = td.elapsedAt now ∧
    ((td.stop now).start now').elapsedAt now' = td.elapsedAt now := by
  simp [TimeDisplay.stop, TimeDisplay.start, TimeDisplay.elapsedAt, h]

/-- A running timer with 5 seconds banked, its current segment begun at 0. -/
def c3_timer : TimeDisplay :=
  { start_time := 0, time := 0, total := 5, limit := 0, running := true,
    session_type := "study" }

/-- C3 witness: the round-trip theorem applied to a concrete running timer,
stopping at instant 7 and restarting at instant 9. -/
theorem C3_roundtrip_witness :
    c3_timer.running = true ∧
    ((c3_timer.stop 7).start 9).total = c3_timer.elapsedAt 7 ∧
    ((c3_timer.stop 7).start 9).elapsedAt 9 = c3_timer.elapsedAt 7 :=
  ⟨rfl, (C3_stop_start_roundtrip c3_timer 7 9 rfl).1,
    (C3_stop_start_roundtrip c3_timer 7 9 rfl).2⟩

/-- A stopped timer with 5 seconds banked; its stale `start_time` is 0 because
the code never clears it. -/
def c4_timer : TimeDisplay :=
  { start_time := 0, time := 5, total := 5, limit := 0, running := false,
    session_type := "study" }

/-- C4: `stop()` on an already-stopped timer is not a no-op: the code folds
`now - start_time` into `total` unconditionally, so a second `stop()` at
instant 7 inflates the banked 5 seconds to 12 and moves the elapsed reading
with it. -/
theorem C4_stop_while_stopped :
    c4_timer.running = false ∧
    c4_timer.total = 5 ∧
    (c4_timer.stop 7).total = 12 ∧
    (c4_timer.stop 7).time = 12 := by
  norm_num [c4_timer, TimeDisplay.stop]

/-- C5 counterexample: a timer started at instant 0 and started again at
instant 5 ends with `start_time = 5`, while a single `start()` leaves it at 0:
the second call is not a no-op and moves the clock of the current segment. -/
theorem C5_double_start_counterexample :
    ((TimeDisplay.init 0).start 0).running = true ∧
    ((TimeDisplay.init 0).start 0).start_time = 0 ∧
    (((TimeDisplay.init 0).start 0).start 5).start_time = 5 ∧
    (5 : ℚ) ≠ 0 := by
  norm_num [TimeDisplay.init, TimeDisplay.start]

/-- C5 (amended): `start()` always overwrites `start_time` with the current
instant and resumes ticking, leaving `total`, `time` and `limit` untouched;
hence a second `start()` at the same instant is a no-op, but a later second
`start()` moves `start_time` forward, discarding the in-flight run segment. -/
theorem C5_start_overwrites (td : TimeDisplay) (now : ℚ) :
    (td.start now).start_time = now ∧
    (td.start now).running = true ∧
    (td.start now).total = td.total ∧
    (td.start now).time = td.time ∧
    (td.start now).limit = td.limit ∧
    (td.start now).start now = td.start now := by
  simp [TimeDisplay.start]

/-- A running timer whose current segment began at instant 2, with 40 seconds
banked. -/
def c8_timer : TimeDisplay :=
  { start_time := 2, time := 40, total := 40, limit := 0, running := true,
    session_type := "study" }

/-- C8 counterexample: `reset()` at instant 50 on a running timer does not set
`start_time` to the reset instant — it stays at 2 — so the next reading is the
full age of the current segment (48 seconds), not zero. -/
theorem C8_reset_counterexample :
    c8_timer.running = true ∧
    (c8_timer.reset).start_time = 2 ∧
    ¬ ((c8_timer.reset).start_time = 50) ∧
    (c8_timer.reset).elapsedAt 50 = 48 ∧
    ¬ ((48 : ℚ) = 0) := by
  norm_num [c8_timer, TimeDisplay.reset, TimeDisplay.elapsedAt]

/-- C8 (amended): `reset()` only zeroes `total` and `time`; it touches neither
`start_time` nor the running status, so on a running timer the next reading is
`now - start_time` (the age of the current run segment), while on a stopped
timer the reading is 0. -/
theorem C8_reset_amended (td : TimeDisplay) (now : ℚ) :
    (td.reset).total = 0 ∧
    (td.reset).time = 0 ∧
    (td.reset).start_time = td.start_time ∧
    (td.reset).running = td.running ∧
    (td.reset).elapsedAt now = (if td.running then now - td.start_time else 0) := by
  cases hr : td.running <;>
    simp [TimeDisplay.reset, TimeDisplay.elapsedAt, hr]

/-- The sequencer at the final break of a 2-session chain: the break whose
completion exhausts the counter (`sessions_remaining = 1`), its timer already
stopped by the tick that posted `SessionEnded`. -/
def c2_end_state : Pomodoro :=
  { study_minutes := 0, study_seconds := 1, break_minutes := 0,
    break_seconds := 1, sessions := 2, session_type := "break",
    sessions_remaining := 1,
    timer := { start_time := 0, time := 1, total := 1, limit := 1,
               running := false, session_type := "break" } }

/-- C2 counterexample: at the completion of the last break the sequencer does
not transition to any Idle state — `session_type` is left at "break" (the code
only ever assigns "study" or "break") — and no `ChainComplete` event exists in
the code; the handler merely stops the timer again and clears the background. -/
theorem C2_no_idle_counterexample :
    (c2_end_state.handle_session_end 1).session_type = "break" ∧
    (c2_end_state.handle_session_end 1).sessions_remaining = 0 ∧
    (c2_end_state.handle_session_end 1).timer.running = false := by
  norm_num [c2_end_state, Pomodoro.handle_session_end, TimeDisplay.stop]

/-- C2 (amended): on `SessionEnded` from a study session the sequencer starts
the break with `sessions_remaining` unchanged; from a break it decrements
`sessions_remaining` exactly once and either starts the next study session
(counter still positive) or stops the timer and stays on `session_type =
"break"` (there is no Idle kind and no ChainComplete event in the code).  So
the counter is decremented exactly once per study+break pair, at break
completion only. -/
theorem C2_handle_session_end_cases (p : Pomodoro) (now : ℚ) :
    (p.session_type = "study" →
      (p.handle_session_end now).session_type = "break" ∧
      (p.handle_session_end now).sessions_remaining = p.sessions_remaining ∧
      (p.handle_session_end now).timer.running = true ∧
      (p.handle_session_end now).timer.total = 0 ∧
      (p.handle_session_end now).timer.limit =
        ((p.break_minutes * 60 + p.break_seconds : ℤ) : ℚ)) ∧
    (¬ (p.session_type = "study") →
      (p.handle_session_end now).sessions_remaining = p.sessions_remaining - 1 ∧
      (0 < p.sessions_remaining - 1 →
        (p.handle_session_end now).session_type = "study" ∧
        (p.handle_session_end now).timer.running = true ∧
        (p.handle_session_end now).timer.total = 0 ∧
        (p.handle_session_end now).timer.limit =
          ((p.study_minutes * 60 + p.study_seconds : ℤ) : ℚ)) ∧
      (¬ (0 < p.sessions_remaining - 1) →
        (p.handle_session_end now).session_type = p.session_type ∧
        (p.handle_session_end now).timer.running = false)) := by
  constructor
  · intro h
    simp [Pomodoro.handle_session_end, h, Pomodoro.start_session,
      TimeDisplay.reset, TimeDisplay.start]
  · intro h
    refine ⟨?_, ?_, ?_⟩
    · by_cases h2 : 0 < p.sessions_remaining - 1 <;>
        simp [Pomodoro.handle_session_end, h, h2, Pomodoro.start_session,
          TimeDisplay.reset, TimeDisplay.start, TimeDisplay.stop]
    · intro h2
      simp [Pomodoro.handle_session_end, h, h2, Pomodoro.start_session,
        TimeDisplay.reset, TimeDisplay.start]
    · intro h2
      simp [Pomodoro.handle_session_end, h, h2, TimeDisplay.stop]

/-- The sequencer mid-study in a 2-session chain (first study running). -/
def c2_study_state : Pomodoro :=
  { study_minutes := 0, study_seconds := 1, break_minutes := 0,
    break_seconds := 1, sessions := 2, session_type := "study",
    sessions_remaining := 2,
    timer := { start_time := 0, time := 1, total := 1, limit := 1,
               running := false, session_type := "study" } }

/-- C2 witness: the case analysis applied at the end of the first study
session of the 2-session chain — the sequencer moves to the break with
`sessions_remaining` still 2 and the break timer running. -/
theorem C2_cases_witness :
    (c2_study_state.handle_session_end 1).session_type = "break" ∧
    (c2_study_state.handle_session_end 1).sessions_remaining = 2 ∧
    (c2_study_state.handle_session_end 1).timer.running = true :=
  ⟨((C2_handle_session_end_cases c2_study_state 1).1 rfl).1,
   ((C2_handle_session_end_cases c2_study_state 1).1 rfl).2.1,
   ((C2_handle_session_end_cases c2_study_state 1).1 rfl).2.2.1⟩

/-- The sequencer mid-chain: configured for 4 sessions, 2 still remaining,
currently in a break with the timer running. -/
def c9_mid : Pomodoro :=
  { study_minutes := 25, study_seconds := 0, break_minutes := 5,
    break_seconds := 0, sessions := 4, session_type := "break",
    sessions_remaining := 2,
    timer := { start_time := 0, time := 3, total := 0, limit := 300,
               running := true, session_type := "break" } }

/-- C9 counterexample: the Reset control sets `sessions_remaining` back to the
configured count (4), not to zero/unset, and leaves `session_type` at "break"
rather than moving to an Idle kind. -/
theorem C9_halt_counterexample :
    (c9_mid.reset_clicked 10).sessions_remaining = 4 ∧
    ¬ ((4 : ℤ) = 0) ∧
    (c9_mid.reset_clicked 10).session_type = "break" := by
  norm_num [c9_mid, Pomodoro.reset_clicked, TimeDisplay.stop,
    TimeDisplay.reset]

/-- C9 (amended): from any state, the Reset control stops the timer (the
unconditional fold of `now - start_time` included), zeroes its `total` and
`time`, and sets `sessions_remaining` to the configured `sessions` count —
restored, not cleared — while `session_type` and the configuration are left
unchanged (there is no Idle kind). -/
theorem C9_reset_clicked_amended (p : Pomodoro) (now : ℚ) :
    (p.reset_clicked now).sessions_remaining = p.sessions ∧
    (p.reset_clicked now).session_type = p.session_type ∧
    (p.reset_clicked now).timer.running = false ∧
    (p.reset_clicked now).timer.total = 0 ∧
    (p.reset_clicked now).timer.time = 0 ∧
    (p.reset_clicked now).timer.start_time = p.timer.start_time ∧
    (p.reset_clicked now).timer.limit = p.timer.limit ∧
    (p.reset_clicked now).sessions = p.sessions ∧
    (p.reset_clicked now).study_minutes = p.study_minutes ∧
    (p.reset_clicked now).break_minutes = p.break_minutes := by
  simp [Pomodoro.reset_clicked, TimeDisplay.stop, TimeDisplay.reset]

/-- Inputs with a negative study-minutes field (the spec's reject scenario
`begin({study=-1, break=5, totalSessions=1})`). -/
def c6_inputs_neg : Inputs :=
  { studyMin := "-1", studySec := "0", breakMin := "5", breakSec := "0",
    sessionsTxt := "1" }

/-- Inputs whose second field is non-numeric, after a numeric first field. -/
def c6_inputs_bad : Inputs :=
  { studyMin := "7", studySec := "x", breakMin := "5", breakSec := "0",
    sessionsTxt := "1" }

/-- C6 counterexample: pressing Start with study minutes "-1" does not fail —
the chain starts with `study_minutes = -1` and a timer limit of `-60` (so the
countdown never completes) — and a non-numeric second field aborts only after
`study_minutes` has already been overwritten (25 becomes 7), a partial update. -/
theorem C6_no_validation_counterexample :
    ((Pomodoro.init 0).start_clicked c6_inputs_neg 0).2 = true ∧
    ((Pomodoro.init 0).start_clicked c6_inputs_neg 0).1.study_minutes = -1 ∧
    ((Pomodoro.init 0).start_clicked c6_inputs_neg 0).1.timer.limit = -60 ∧
    ((Pomodoro.init 0).start_clicked c6_inputs_neg 0).1.timer.running = true ∧
    (Pomodoro.init 0).study_minutes = 25 ∧
    ((Pomodoro.init 0).start_clicked c6_inputs_bad 0).2 = false ∧
    ((Pomodoro.init 0).start_clicked c6_inputs_bad 0).1.study_minutes = 7 := by
  have h1 : parseField "-1" "0" = some (-1) := by decide
  have h2 : parseField "0" "0" = some 0 := by decide
  have h3 : parseField "5" "0" = some 5 := by decide
  have h4 : parseField "1" "1" = some 1 := by decide
  have h5 : parseField "7" "0" = some 7 := by decide
  have h6 : parseField "x" "0" = none := by decide
  refine ⟨?_, ?_, ?_, ?_, ?_, ?_, ?_⟩ <;>
    norm_num [Pomodoro.init, TimeDisplay.init, c6_inputs_neg, c6_inputs_bad,
      Pomodoro.start_clicked, h1, h2, h3, h4, h5, h6,
      Pomodoro.start_session, TimeDisplay.reset, TimeDisplay.start]

/-- C6 (amended): `start_clicked` rejects exactly the configurations with a
non-numeric field (Python `int` raises `ValueError`): on rejection no session
starts and the timer, `session_type` and `sessions_remaining` are untouched,
but configuration fields parsed before the failing one have already been
updated.  On success every parsed value — negative durations and session
counts below 1 included — is accepted verbatim, `sessions_remaining` is set to
the parsed count, and a study session starts with limit
`study_minutes * 60 + study_seconds`. -/
theorem C6_start_clicked_amended (p : Pomodoro) (inp : Inputs) (now : ℚ) :
    ((p.start_clicked inp now).2 = false →
      (p.start_clicked inp now).1.timer = p.timer ∧
      (p.start_clicked inp now).1.session_type = p.session_type ∧
      (p.start_clicked inp now).1.sessions_remaining = p.sessions_remaining) ∧
    (∀ sm ss bm bs n,
      parseField inp.studyMin "0" = some sm →
      parseField inp.studySec "0" = some ss →
      parseField inp.breakMin "0" = some bm →
      parseField inp.breakSec "0" = some bs →
      parseField inp.sessionsTxt "1" = some n →
      (p.start_clicked inp now).2 = true ∧
      (p.start_clicked inp now).1.study_minutes = sm ∧
      (p.start_clicked inp now).1.study_seconds = ss ∧
      (p.start_clicked inp now).1.break_minutes = bm ∧
      (p.start_clicked inp now).1.break_seconds = bs ∧
      (p.start_clicked inp now).1.sessions = n ∧
      (p.start_clicked inp now).1.sessions_remaining = n ∧
      (p.start_clicked inp now).1.session_type = "study" ∧
      (p.start_clicked inp now).1.timer.running = true ∧
      (p.start_clicked inp now).1.timer.total = 0 ∧
      (p.start_clicked inp now).1.timer.limit = ((sm * 60 + ss : ℤ) : ℚ)) := by
  constructor
  · intro hf
    cases h1 : parseField inp.studyMin "0" with
    | none => simp [Pomodoro.start_clicked, h1]
    | some sm =>
      cases h2 : parseField inp.studySec "0" with
      | none => simp [Pomodoro.start_clicked, h1, h2]
      | some ss =>
        cases h3 : parseField inp.breakMin "0" with
        | none => simp [Pomodoro.start_clicked, h1, h2, h3]
        | some bm =>
          cases h4 : parseField inp.breakSec "0" with
          | none => simp [Pomodoro.start_clicked, h1, h2, h3, h4]
          | some bs =>
            cases h5 : parseField inp.sessionsTxt "1" with
            | none => simp [Pomodoro.start_clicked, h1, h2, h3, h4, h5]
            | some n =>
              simp [Pomodoro.start_clicked, h1, h2, h3, h4, h5] at hf
  · intro sm ss bm bs n h1 h2 h3 h4 h5
    simp [Pomodoro.start_clicked, h1, h2, h3, h4, h5,
      Pomodoro.start_session, TimeDisplay.reset, TimeDisplay.start]

/-- Inputs in which every field parses (used as the C6 witness input). -/
def c6_inputs_ok : Inputs :=
  { studyMin := "2", studySec := "3", breakMin := "4", breakSec := "5",
    sessionsTxt := "6" }

/-- C6 witness: the amended theorem applied to the initial state and a fully
numeric input. -/
theorem C6_amended_witness :
    ((Pomodoro.init 0).start_clicked c6_inputs_ok 0).2 = true ∧
    ((Pomodoro.init 0).start_clicked c6_inputs_ok 0).1.sessions_remaining = 6 :=
  ⟨(((C6_start_clicked_amended (Pomodoro.init 0) c6_inputs_ok 0).2 2 3 4 5 6
      (by decide) (by decide) (by decide) (by decide) (by decide))).1,
   (((C6_start_clicked_amended (Pomodoro.init 0) c6_inputs_ok 0).2 2 3 4 5 6
      (by decide) (by decide) (by decide) (by decide) (by decide))).2.2.2.2.2.2.1⟩

/-- The sequencer mid-study: a study session configured for 25 minutes is
running with 2 chain repetitions still pending. -/
def c7_mid_study : Pomodoro :=
  { study_minutes := 25, study_seconds := 0, break_minutes := 5,
    break_seconds := 0, sessions := 4, session_type := "study",
    sessions_remaining := 2,
    timer := { start_time := 0, time := 3, total := 0, limit := 1500,
               running := true, session_type := "study" } }

/-- Numeric inputs used to press Start mid-study. -/
def c7_inputs : Inputs :=
  { studyMin := "10", studySec := "0", breakMin := "2", breakSec := "0",
    sessionsTxt := "3" }

/-- C7 counterexample: pressing Start while a study session is running is not
rejected — it succeeds, overwrites `sessions_remaining` (2 becomes 3) and
reconfigures and restarts the running timer (limit 1500 becomes 600, banked
time dropped to 0). -/
theorem C7_begin_midstudy_counterexample :
    c7_mid_study.session_type = "study" ∧
    c7_mid_study.timer.running = true ∧
    c7_mid_study.sessions_remaining = 2 ∧
    (c7_mid_study.start_clicked c7_inputs 3).2 = true ∧
    (c7_mid_study.start_clicked c7_inputs 3).1.sessions_remaining = 3 ∧
    (c7_mid_study.start_clicked c7_inputs 3).1.timer.limit = 600 ∧
    (c7_mid_study.start_clicked c7_inputs 3).1.timer.total = 0 := by
  have h1 : parseField "10" "0" = some 10 := by decide
  have h2 : parseField "0" "0" = some 0 := by decide
  have h3 : parseField "2" "0" = some 2 := by decide
  have h4 : parseField "3" "1" = some 3 := by decide
  refine ⟨rfl, rfl, rfl, ?_, ?_, ?_, ?_⟩ <;>
    norm_num [c7_mid_study, c7_inputs, Pomodoro.start_clicked, h1, h2, h3, h4,
      Pomodoro.start_session, TimeDisplay.reset, TimeDisplay.start]

/-- C7 (amended): no control call checks the sequencer state.  Start succeeds
from any state whenever the five fields parse — mid-study included — starting
a fresh study session with the parsed count; and Stop always delegates to
`timer.stop()` even when the timer is already stopped (folding
`now - start_time` once more), leaving `session_type` and `sessions_remaining`
unchanged.  No `InvalidState` rejection exists in the code. -/
theorem C7_no_state_guards (p : Pomodoro) (inp : Inputs) (now : ℚ) :
    (∀ sm ss bm bs n,
      parseField inp.studyMin "0" = some sm →
      parseField inp.studySec "0" = some ss →
      parseField inp.breakMin "0" = some bm →
      parseField inp.breakSec "0" = some bs →
      parseField inp.sessionsTxt "1" = some n →
      (p.start_clicked inp now).2 = true ∧
      (p.start_clicked inp now).1.session_type = "study" ∧
      (p.start_clicked inp now).1.sessions_remaining = n) ∧
    ((p.stop_clicked now).timer.running = false ∧
     (p.stop_clicked now).timer.total =
       p.timer.total + (now - p.timer.start_time) ∧
     (p.stop_clicked now).session_type = p.session_type ∧
     (p.stop_clicked now).sessions_remaining = p.sessions_remaining) := by
  constructor
  · intro sm ss bm bs n h1 h2 h3 h4 h5
    simp [Pomodoro.start_clicked, h1, h2, h3, h4, h5,
      Pomodoro.start_session, TimeDisplay.reset, TimeDisplay.start]
  · simp [Pomodoro.stop_clicked, TimeDisplay.stop]

/-- C7 witness: the no-guard theorem applied mid-study — Start succeeds with
the running timer and Stop still folds on the already-stopped path. -/
theorem C7_no_state_guards_witness :
    (c7_mid_study.start_clicked c7_inputs 3).2 = true ∧
    (c7_mid_study.stop_clicked 3).timer.running = false :=
  ⟨((C7_no_state_guards c7_mid_study c7_inputs 3).1 10 0 2 0 3
      (by decide) (by decide) (by decide) (by decide) (by decide)).1,
   (C7_no_state_guards c7_mid_study c7_inputs 3).2.1⟩

/-- C10: empty input fields never make configuration parsing fail: `value or
"0"` (or `"1"` for the sessions field) replaces an empty string before `int`
runs, so an all-empty form starts the chain with study 0:00, break 0:00 and a
single session rather than rejecting the input. -/
theorem C10_empty_fields_default (p : Pomodoro) (inp : Inputs) (now : ℚ)
    (h1 : inp.studyMin = "") (h2 : inp.studySec = "") (h3 : inp.breakMin = "")
    (h4 : inp.breakSec = "") (h5 : inp.sessionsTxt = "") :
    (p.start_clicked inp now).2 = true ∧
    (p.start_clicked inp now).1.study_minutes = 0 ∧
    (p.start_clicked inp now).1.study_seconds = 0 ∧
    (p.start_clicked inp now).1.break_minutes = 0 ∧
    (p.start_clicked inp now).1.break_seconds = 0 ∧
    (p.start_clicked inp now).1.sessions = 1 ∧
    (p.start_clicked inp now).1.sessions_remaining = 1 ∧
    (p.start_clicked inp now).1.session_type = "study" ∧
    (p.start_clicked inp now).1.timer.running = true := by
  have hm : parseField inp.studyMin "0" = some 0 := by rw [h1]; decide
  have hs : parseField inp.studySec "0" = some 0 := by rw [h2]; decide
  have hbm : parseField inp.breakMin "0" = some 0 := by rw [h3]; decide
  have hbs : parseField inp.breakSec "0" = some 0 := by rw [h4]; decide
  have hn : parseField inp.sessionsTxt "1" = some 1 := by rw [h5]; decide
  simp [Pomodoro.start_clicked, hm, hs, hbm, hbs, hn,
    Pomodoro.start_session, TimeDisplay.reset, TimeDisplay.start]

/-- The all-empty input form. -/
def c10_inputs : Inputs :=
  { studyMin := "", studySec := "", breakMin := "", breakSec := "",
    sessionsTxt := "" }

/-- C10 witness: the defaulting theorem applied to the initial state with
every field empty. -/
theorem C10_empty_fields_witness :
    ((Pomodoro.init 0).start_clicked c10_inputs 0).2 = true ∧
    ((Pomodoro.init 0).start_clicked c10_inputs 0).1.sessions_remaining = 1 :=
  ⟨(C10_empty_fields_default (Pomodoro.init 0) c10_inputs 0
      rfl rfl rfl rfl rfl).1,
   (C10_empty_fields_default (Pomodoro.init 0) c10_inputs 0
      rfl rfl rfl rfl rfl).2.2.2.2.2.2.1⟩
